import Mathlib

/-!
Shallow embedding of `src/main.c` from the Infineon PMG1 power-modes
code example (mtb-example-pmg1-power-modes).

The program: a GPIO interrupt (`switch_isr`) counts button presses in the
global `volatile int16_t SwitchPressCount`; the main loop polls the count
and enters CPU Sleep when the count equals 1 and CPU Deep Sleep when it
equals 3 (resetting the count to 0 after deep-sleep wake); registered
SysPm callbacks (`sleep_callback` / `deep_sleep_callback`, both delegating
to `callback_function`) blink the user LED before a transition via
`led_blink`.

Modelling conventions:
* machine integers are `Nat` / `Int` with explicit wrapping where the C
  types make overflow relevant (`int16_t` for the press count, `uint8_t`
  for the loop counter in `led_blink`);
* side effects (GPIO writes, delays, power-mode entry, interrupt clearing)
  are reified as event traces (`PinEvent`, `MainEvent`, `IsrEvent`);
* the `for` loop in `led_blink` is embedded with an explicit fuel
  parameter, since for `num_toggles > 255` the C loop does not terminate
  (its `uint8_t` counter wraps before ever reaching the bound).
-/

/-! ### Constants from `main.c` macros and the PDL headers -/

/-- `#define LED_ON (0U)` -/
def LED_ON : Nat := 0

/-- `#define LED_OFF (1U)` -/
def LED_OFF : Nat := 1

/-- `#define SLEEP_SWITCH_PRESS (1U)` -/
def SLEEP_SWITCH_PRESS : Int := 1

/-- `#define DEEP_SLEEP_SWITCH_PRESS (3U)` -/
def DEEP_SLEEP_SWITCH_PRESS : Int := 3

/-- `#define BLINK_TIME_MS (200U)` -/
def BLINK_TIME_MS : Nat := 200

/-- `cy_en_syspm_callback_mode_t` value `CY_SYSPM_CHECK_READY` (0x01 in the
PDL headers, which are outside this repository). -/
def CY_SYSPM_CHECK_READY : Nat := 0x01

/-- `cy_en_syspm_callback_mode_t` value `CY_SYSPM_CHECK_FAIL` (0x02). -/
def CY_SYSPM_CHECK_FAIL : Nat := 0x02

/-- `cy_en_syspm_callback_mode_t` value `CY_SYSPM_BEFORE_TRANSITION` (0x04). -/
def CY_SYSPM_BEFORE_TRANSITION : Nat := 0x04

/-- `cy_en_syspm_callback_mode_t` value `CY_SYSPM_AFTER_TRANSITION` (0x08). -/
def CY_SYSPM_AFTER_TRANSITION : Nat := 0x08

/-- The two `cy_en_syspm_status_t` values used by `main.c`:
`CY_SYSPM_SUCCESS` and `CY_SYSPM_FAIL`. -/
inductive SyspmStatus where
  | success
  | fail
deriving DecidableEq, Repr

/-! ### The indicator driver: `led_blink` -/

/-- Observable pin-level actions performed by `led_blink`:
a GPIO write of the user LED to a level, or a `Cy_SysLib_Delay`. -/
inductive PinEvent where
  | write (level : Nat)
  | delay (ms : Nat)
deriving DecidableEq, Repr

/-- The `for (count = 0; count < num_toggles; count++)` loop body of
`led_blink`:
`Cy_GPIO_Write(..., LED_OFF); Cy_SysLib_Delay(blink_time);
 Cy_GPIO_Write(..., LED_ON); Cy_SysLib_Delay(blink_time);`. -/
def led_blink_body (blink_time : Nat) : List PinEvent :=
  [PinEvent.write LED_OFF, PinEvent.delay blink_time,
   PinEvent.write LED_ON, PinEvent.delay blink_time]

/-- The `led_blink` loop. `count` holds the value of the C `uint8_t count`
(always `< 256`; the increment wraps modulo 256). The loop guard is
`count < num_toggles` (the `uint8_t` is promoted for the comparison with
the `uint32_t` bound). `fuel` bounds the number of iterations we unfold;
`none` means the loop did not finish within `fuel` iterations. -/
def led_blink_loop (blink_time num_toggles : Nat) : Nat → Nat → Option (List PinEvent)
  | _, 0 => none
  | count, fuel + 1 =>
    if count < num_toggles then
      match led_blink_loop blink_time num_toggles ((count + 1) % 256) fuel with
      | none => none
      | some rest => some (led_blink_body blink_time ++ rest)
    else
      some []

/-- `led_blink(blink_time, num_toggles)`: run the loop from `count = 0`,
then `Cy_GPIO_Write(..., LED_OFF)` as the final action. `none` means the
loop did not finish within `fuel` iterations. -/
def led_blink (blink_time num_toggles fuel : Nat) : Option (List PinEvent) :=
  match led_blink_loop blink_time num_toggles 0 fuel with
  | none => none
  | some tr => some (tr ++ [PinEvent.write LED_OFF])

/-- `led_blink` terminates: some fuel suffices for the loop to exit. -/
def led_blink_terminates (blink_time num_toggles : Nat) : Prop :=
  ∃ fuel, (led_blink blink_time num_toggles fuel).isSome

/-- `led_blink` diverges: no amount of fuel makes the loop exit. -/
def led_blink_diverges (blink_time num_toggles : Nat) : Prop :=
  ∀ fuel, led_blink blink_time num_toggles fuel = none

/-- The trace `led_blink` produces when it terminates: `num_toggles`
repetitions of the loop body followed by the final off-write. -/
def led_blink_trace (blink_time num_toggles : Nat) : List PinEvent :=
  (List.replicate num_toggles (led_blink_body blink_time)).flatten
    ++ [PinEvent.write LED_OFF]

/-! ### The SysPm callbacks -/

/-- A call of the indicator driver, as the observable side effect of
`callback_function` (its internals are the subject of `led_blink` above). -/
structure BlinkCall where
  blink_time : Nat
  num_toggles : Nat
deriving DecidableEq, Repr

/-- `callback_function(mode, led_blink_count)` from `main.c`: the
`switch (mode)` over the four SysPm checkpoint values. It returns the
`cy_en_syspm_status_t` together with the list of `led_blink` calls the
taken case performs (only the `CY_SYSPM_BEFORE_TRANSITION` case calls
`led_blink(BLINK_TIME_MS, led_blink_count)`). `DEBUG_PRINT` is 0, so the
UART statements are compiled out. -/
def callback_function (mode led_blink_count : Nat) : SyspmStatus × List BlinkCall :=
  if mode = CY_SYSPM_CHECK_READY then
    (SyspmStatus.success, [])
  else if mode = CY_SYSPM_CHECK_FAIL then
    (SyspmStatus.fail, [])
  else if mode = CY_SYSPM_BEFORE_TRANSITION then
    (SyspmStatus.success, [⟨BLINK_TIME_MS, led_blink_count⟩])
  else if mode = CY_SYSPM_AFTER_TRANSITION then
    (SyspmStatus.success, [])
  else
    (SyspmStatus.success, [])

/-- `sleep_callback`: delegates to `callback_function(mode, 2)`. -/
def sleep_callback (mode : Nat) : SyspmStatus × List BlinkCall :=
  callback_function mode 2

/-- `deep_sleep_callback`: delegates to `callback_function(mode, 3)`. -/
def deep_sleep_callback (mode : Nat) : SyspmStatus × List BlinkCall :=
  callback_function mode 3

/-! ### The interrupt handler: `switch_isr` -/

/-- Wrap an integer into the `int16_t` range, as the ARM implementation
does when converting an out-of-range value back to `int16_t`. -/
def int16_wrap (x : Int) : Int :=
  (x + 32768) % 65536 - 32768

/-- Observable actions of `switch_isr` besides the counter update. -/
inductive IsrEvent where
  | clearInterrupt
deriving DecidableEq, Repr

/-- `switch_isr`: increments `SwitchPressCount` (an `int16_t`, so the
increment wraps at 32767) and then clears the pending pin interrupt via
`Cy_GPIO_ClearInterrupt`. Input: the current counter value; output: the
new counter value and the trace of the handler body. -/
def switch_isr (pc : Int) : Int × List IsrEvent :=
  (int16_wrap (pc + 1), [IsrEvent.clearInterrupt])

/-- `SwitchPressCount` after `n` invocations of `switch_isr` starting
from the initial value `volatile int16_t SwitchPressCount = 0`. -/
def press_count_after : Nat → Int
  | 0 => 0
  | n + 1 => (switch_isr (press_count_after n)).1

/-! ### The main control loop -/

/-- Observable actions of one iteration of the `for (;;)` loop in `main`. -/
inductive MainEvent where
  | ledWrite (level : Nat)
  | enterSleep
  | enterDeepSleep
  | setPressCount (v : Int)
deriving DecidableEq, Repr

/-- One iteration of the `for (;;)` loop in `main`, with `pc` the value
read from `SwitchPressCount` (an `int16_t`, so `pc` ranges over
[-32768, 32767], on which the `==` comparisons against the `1U` / `3U`
macros coincide with integer equality). The iteration writes the LED on,
then either enters Sleep (count unchanged), enters Deep Sleep and resets
the count to 0, or does nothing. Returns the event trace of the
iteration and the final `SwitchPressCount`. `DEBUG_PRINT` is 0, so the
UART branches are compiled out. -/
def main_iter (pc : Int) : List MainEvent × Int :=
  if pc = SLEEP_SWITCH_PRESS then
    ([MainEvent.ledWrite LED_ON, MainEvent.enterSleep], pc)
  else if pc = DEEP_SLEEP_SWITCH_PRESS then
    ([MainEvent.ledWrite LED_ON, MainEvent.enterDeepSleep,
      MainEvent.setPressCount 0], 0)
  else
    ([MainEvent.ledWrite LED_ON], pc)

/-! ### The concurrent system: interleavings of ISR and loop iterations -/

/-- An atomic step of the system: either the interrupt handler fires, or
the main loop runs one iteration. These are the only two writers of
`SwitchPressCount` in `main.c`. -/
inductive SysOp where
  | edge
  | loopIter
deriving DecidableEq, Repr

/-- Effect of one system step on `SwitchPressCount`. -/
def sys_step (op : SysOp) (pc : Int) : Int :=
  match op with
  | SysOp.edge => (switch_isr pc).1
  | SysOp.loopIter => (main_iter pc).2

/-- `SwitchPressCount` after running a sequence of system steps. -/
def sys_run (pc : Int) : List SysOp → Int
  | [] => pc
  | op :: rest => sys_run (sys_step op pc) rest

/-- The sequence of steps never increments the counter at its maximum
`int16_t` value 32767 (the accepted overflow edge case is excluded). -/
def no_overflow (pc : Int) : List SysOp → Bool
  | [] => true
  | SysOp.edge :: rest => decide (pc < 32767) && no_overflow (sys_step SysOp.edge pc) rest
  | SysOp.loopIter :: rest => no_overflow (sys_step SysOp.loopIter pc) rest

/-! ### Auxiliary observation functions on traces -/

/-- Is the event a `Cy_SysLib_Delay`? -/
def is_delay : PinEvent → Bool
  | PinEvent.delay _ => true
  | PinEvent.write _ => false

/-- Is the event a write that turns the LED on (half of an on/off toggle)?
A trace with no such write performs no pin toggle. -/
def is_on_write : PinEvent → Bool
  | PinEvent.write l => l == LED_ON
  | PinEvent.delay _ => false

/-- Is the event a write to `SwitchPressCount`? -/
def is_count_write : MainEvent → Bool
  | MainEvent.setPressCount _ => true
  | _ => false

/-- `k` successive calls of `led_blink(blink_time, num_toggles)`, each with
the given fuel; the concatenation of their traces (`none` if any call
fails to terminate within its fuel). -/
def led_blink_repeat (blink_time num_toggles fuel : Nat) : Nat → Option (List PinEvent)
  | 0 => some []
  | k + 1 =>
    match led_blink blink_time num_toggles fuel, led_blink_repeat blink_time num_toggles fuel k with
    | some tr, some rest => some (tr ++ rest)
    | _, _ => none

/-! ## Helper lemmas -/

/-- With enough fuel and a counter at most the bound (which fits in the
`uint8_t`), the `led_blink` loop runs exactly `num_toggles - count` more
iterations and exits. -/
lemma led_blink_loop_eq_of_le (t n : Nat) (hn : n ≤ 255) :
    ∀ fuel count, count ≤ n → n - count < fuel →
      led_blink_loop t n count fuel =
        some (List.replicate (n - count) (led_blink_body t)).flatten := by
  intro fuel
  induction fuel with
  | zero => intro count _ h; omega
  | succ f ih =>
    intro count hc hf
    by_cases h : count < n
    · have hmod : (count + 1) % 256 = count + 1 := Nat.mod_eq_of_lt (by omega)
      have := ih ((count + 1) % 256) (by omega) (by omega)
      rw [led_blink_loop, if_pos h, this, hmod]
      have hrep : n - count = (n - (count + 1)) + 1 := by omega
      rw [hrep, List.replicate_succ, List.flatten_cons]
    · have hcn : count = n := by omega
      rw [led_blink_loop, if_neg h]
      simp [hcn]

/-- For `num_toggles ≤ 255`, running `led_blink` with fuel
`num_toggles + 1` yields the full trace. -/
lemma led_blink_eq_of_le (t n : Nat) (hn : n ≤ 255) :
    led_blink t n (n + 1) = some (led_blink_trace t n) := by
  unfold led_blink led_blink_trace
  rw [led_blink_loop_eq_of_le t n hn (n + 1) 0 (Nat.zero_le n) (by omega)]
  simp

/-- For `num_toggles ≥ 256`, the loop guard never fails at any reachable
counter value (all are `< 256`), so the loop consumes any fuel. -/
lemma led_blink_loop_none_of_ge (t n : Nat) (hn : 256 ≤ n) :
    ∀ fuel count, count < 256 → led_blink_loop t n count fuel = none := by
  intro fuel
  induction fuel with
  | zero => intro count _; rfl
  | succ f ih =>
    intro count hc
    rw [led_blink_loop, if_pos (by omega)]
    rw [ih ((count + 1) % 256) (Nat.mod_lt _ (by omega))]

/-- For `num_toggles ≥ 256`, `led_blink` returns within no fuel bound. -/
lemma led_blink_none_of_ge (t n : Nat) (hn : 256 ≤ n) :
    ∀ fuel, led_blink t n fuel = none := by
  intro fuel
  unfold led_blink
  rw [led_blink_loop_none_of_ge t n hn fuel 0 (by omega)]

/-- The blink trace contains exactly `2 * num_toggles` delay events. -/
lemma led_blink_trace_countP_delay (t n : Nat) :
    (led_blink_trace t n).countP is_delay = 2 * n := by
  unfold led_blink_trace
  induction n with
  | zero => simp [led_blink_body, is_delay]
  | succ m ih =>
    rw [List.replicate_succ, List.flatten_cons, List.append_assoc,
      List.countP_append]
    rw [List.countP_append] at ih
    simp only [List.countP_append] at *
    simp [led_blink_body, is_delay, LED_OFF, LED_ON] at *
    omega

/-- The blink trace ends with the final off-write. -/
lemma led_blink_trace_getLast (t n : Nat) :
    (led_blink_trace t n).getLast? = some (PinEvent.write LED_OFF) := by
  unfold led_blink_trace
  rw [List.getLast?_append]
  rfl

/-- `led_blink` with `num_toggles = 0` skips the loop and performs only
the final off-write. -/
lemma led_blink_zero (t fuel : Nat) (hf : 1 ≤ fuel) :
    led_blink t 0 fuel = some [PinEvent.write LED_OFF] := by
  obtain ⟨f, rfl⟩ : ∃ f, fuel = f + 1 := ⟨fuel - 1, by omega⟩
  unfold led_blink led_blink_loop
  simp

/-- `k` repetitions of `led_blink` with `num_toggles = 0` produce `k`
off-writes and nothing else. -/
lemma led_blink_repeat_zero (t fuel : Nat) (hf : 1 ≤ fuel) :
    ∀ k, led_blink_repeat t 0 fuel k =
      some (List.replicate k (PinEvent.write LED_OFF)) := by
  intro k
  induction k with
  | zero => rfl
  | succ m ih =>
    rw [led_blink_repeat, led_blink_zero t fuel hf, ih,
      List.replicate_succ]
    rfl

/-! ## Claim theorems -/

/-- C10: `led_blink` terminates if and only if `num_toggles ≤ 255` — the
`uint8_t` loop counter wraps and never reaches a larger bound — and at the
program's only call sites (cycle counts 2 and 3, interval 200 ms) it
always terminates. -/
theorem led_blink_terminates_iff_le_255 :
    (∀ t n, led_blink_terminates t n ↔ n ≤ 255) ∧
    led_blink_terminates BLINK_TIME_MS 2 ∧
    led_blink_terminates BLINK_TIME_MS 3 := by
  have key : ∀ t n, led_blink_terminates t n ↔ n ≤ 255 := by
    intro t n
    constructor
    · intro ⟨fuel, hfuel⟩
      by_contra h
      rw [led_blink_none_of_ge t n (by omega) fuel] at hfuel
      exact Bool.false_ne_true hfuel
    · intro h
      exact ⟨n + 1, by rw [led_blink_eq_of_le t n h]; rfl⟩
  exact ⟨key, (key _ 2).mpr (by omega), (key _ 3).mpr (by omega)⟩

/-- C6 counterexample: called with 256 cycles, `led_blink` does not
perform 256 blink repetitions and a final off-write — it never
terminates, no matter how far the loop is unfolded. -/
theorem led_blink_diverges_at_256 : led_blink_diverges 200 256 :=
  led_blink_none_of_ge 200 256 (by omega) 

/-- C6 (amended to `cycles ≤ 255`): for every interval and every
`num_toggles ≤ 255`, `led_blink` terminates and performs exactly
`num_toggles` repetitions of (write off, delay, write on, delay) — hence
`2 * num_toggles` delays of `blink_time` each — and then writes the pin
to the off state as its final action. -/
theorem led_blink_exact_trace (t n : Nat) (h : n ≤ 255) :
    led_blink t n (n + 1) = some (led_blink_trace t n) ∧
    (led_blink_trace t n).countP is_delay = 2 * n ∧
    (led_blink_trace t n).getLast? = some (PinEvent.write LED_OFF) :=
  ⟨led_blink_eq_of_le t n h, led_blink_trace_countP_delay t n,
    led_blink_trace_getLast t n⟩

/-- C6 witness: the sleep-mode call site, `led_blink(200, 2)`. -/
theorem led_blink_exact_trace_witness :
    led_blink 200 2 3 = some (led_blink_trace 200 2) ∧
    (led_blink_trace 200 2).countP is_delay = 2 * 2 ∧
    (led_blink_trace 200 2).getLast? = some (PinEvent.write LED_OFF) :=
  led_blink_exact_trace 200 2 (by omega)

/-- C7: calling `led_blink` with `cycles = 0` performs no pin toggle
(no write of the on level, indeed nothing but the one off-write) and
leaves the pin in the off state, and any number `k` of repetitions of
that call yields the same: `k` off-writes, no toggles, pin left off. -/
theorem led_blink_zero_cycles_idempotent (t fuel k : Nat) (hf : 1 ≤ fuel) :
    led_blink t 0 fuel = some [PinEvent.write LED_OFF] ∧
    led_blink_repeat t 0 fuel k =
      some (List.replicate k (PinEvent.write LED_OFF)) ∧
    (List.replicate k (PinEvent.write LED_OFF)).countP is_on_write = 0 ∧
    (1 ≤ k → (List.replicate k (PinEvent.write LED_OFF)).getLast? =
      some (PinEvent.write LED_OFF)) := by
  refine ⟨led_blink_zero t fuel hf, led_blink_repeat_zero t fuel hf k, ?_, ?_⟩
  · simp [is_on_write, LED_OFF, LED_ON]
  · intro hk
    rw [List.getLast?_replicate]
    rw [if_neg (by omega)]

/-- C7 witness: three repeated calls with interval 200 and fuel 1. -/
theorem led_blink_zero_cycles_idempotent_witness :
    led_blink 200 0 1 = some [PinEvent.write LED_OFF] ∧
    led_blink_repeat 200 0 1 3 =
      some (List.replicate 3 (PinEvent.write LED_OFF)) ∧
    (List.replicate 3 (PinEvent.write LED_OFF)).countP is_on_write = 0 ∧
    (1 ≤ 3 → (List.replicate 3 (PinEvent.write LED_OFF)).getLast? =
      some (PinEvent.write LED_OFF)) :=
  led_blink_zero_cycles_idempotent 200 1 3 (by omega)

/-- C1 counterexample: invoked with the check-failed checkpoint value,
`callback_function` does not return success — it returns `CY_SYSPM_FAIL`
(the `CY_SYSPM_CHECK_FAIL` case sets `ret_val = CY_SYSPM_FAIL`). -/
theorem callback_function_check_fail_returns_fail :
    (callback_function CY_SYSPM_CHECK_FAIL 2).1 = SyspmStatus.fail ∧
    decide ((callback_function CY_SYSPM_CHECK_FAIL 2).1 = SyspmStatus.success)
      = false := by
  constructor <;> decide

/-- C1 (amended): at every checkpoint other than check-failed,
`callback_function` — and hence `sleep_callback` and
`deep_sleep_callback` — returns success; at the check-failed checkpoint
it returns the failure status `CY_SYSPM_FAIL`. -/
theorem callback_function_status (mode c : Nat) :
    (callback_function mode c).1 =
      (if mode = CY_SYSPM_CHECK_FAIL then SyspmStatus.fail
       else SyspmStatus.success) ∧
    (sleep_callback mode).1 =
      (if mode = CY_SYSPM_CHECK_FAIL then SyspmStatus.fail
       else SyspmStatus.success) ∧
    (deep_sleep_callback mode).1 =
      (if mode = CY_SYSPM_CHECK_FAIL then SyspmStatus.fail
       else SyspmStatus.success) := by
  have key : ∀ d, (callback_function mode d).1 =
      (if mode = CY_SYSPM_CHECK_FAIL then SyspmStatus.fail
       else SyspmStatus.success) := by
    intro d
    unfold callback_function
    unfold CY_SYSPM_CHECK_READY CY_SYSPM_CHECK_FAIL
      CY_SYSPM_BEFORE_TRANSITION CY_SYSPM_AFTER_TRANSITION
    split_ifs <;> simp_all
  exact ⟨key c, key 2, key 3⟩

/-- C8: at the check-ready checkpoint the handler returns success with no
side effect; at the after-transition checkpoint likewise; and at every
checkpoint value other than the four named ones the `default` case is a
no-op returning success. -/
theorem callback_function_ready_after_default (c : Nat) :
    callback_function CY_SYSPM_CHECK_READY c = (SyspmStatus.success, []) ∧
    callback_function CY_SYSPM_AFTER_TRANSITION c = (SyspmStatus.success, []) ∧
    ∀ mode, mode ≠ CY_SYSPM_CHECK_READY → mode ≠ CY_SYSPM_CHECK_FAIL →
      mode ≠ CY_SYSPM_BEFORE_TRANSITION → mode ≠ CY_SYSPM_AFTER_TRANSITION →
      callback_function mode c = (SyspmStatus.success, []) := by
  refine ⟨?_, ?_, ?_⟩
  · unfold callback_function
    rw [if_pos rfl]
  · unfold callback_function
    rw [if_neg (by decide), if_neg (by decide), if_neg (by decide), if_pos rfl]
  · intro mode h1 h2 h3 h4
    unfold callback_function
    rw [if_neg h1, if_neg h2, if_neg h3, if_neg h4]

/-- C8 witness: checkpoint value 0 is none of the four named ones and
hits the `default` case. -/
theorem callback_function_default_witness :
    callback_function 0 2 = (SyspmStatus.success, []) :=
  (callback_function_ready_after_default 2).2.2 0 (by decide) (by decide)
    (by decide) (by decide)

/-- C4: at the before-transition checkpoint the handler calls the
indicator driver with the fixed 200 ms interval and the mode-specific
cycle count — 2 when registered via `sleep_callback`, 3 via
`deep_sleep_callback` — and returns success; and no checkpoint other than
before-transition performs any blink call. -/
theorem before_transition_blink_calls :
    sleep_callback CY_SYSPM_BEFORE_TRANSITION =
      (SyspmStatus.success, [⟨BLINK_TIME_MS, 2⟩]) ∧
    deep_sleep_callback CY_SYSPM_BEFORE_TRANSITION =
      (SyspmStatus.success, [⟨BLINK_TIME_MS, 3⟩]) ∧
    ∀ mode c, mode ≠ CY_SYSPM_BEFORE_TRANSITION →
      (callback_function mode c).2 = [] := by
  refine ⟨by decide, by decide, ?_⟩
  intro mode c h
  unfold callback_function
  split_ifs <;> simp_all

/-- C4 witness: the check-ready checkpoint performs no blink call. -/
theorem before_transition_blink_calls_witness :
    (callback_function CY_SYSPM_CHECK_READY 2).2 = [] :=
  before_transition_blink_calls.2.2 CY_SYSPM_CHECK_READY 2 (by decide)

/-- C2: in each loop iteration, the sleep mode-entry is invoked exactly
when `SwitchPressCount == SLEEP_SWITCH_PRESS` (an exact-equality test,
value 1), the deep-sleep mode-entry exactly when
`SwitchPressCount == DEEP_SLEEP_SWITCH_PRESS` (value 3), and for every
other count the iteration attempts no transition. -/
theorem main_iter_threshold_selection (pc : Int) :
    (MainEvent.enterSleep ∈ (main_iter pc).1 ↔ pc = SLEEP_SWITCH_PRESS) ∧
    (MainEvent.enterDeepSleep ∈ (main_iter pc).1 ↔
      pc = DEEP_SLEEP_SWITCH_PRESS) ∧
    (pc ≠ SLEEP_SWITCH_PRESS → pc ≠ DEEP_SLEEP_SWITCH_PRESS →
      (main_iter pc).1 = [MainEvent.ledWrite LED_ON]) := by
  unfold main_iter
  split_ifs with h1 h2 <;>
    simp_all [SLEEP_SWITCH_PRESS, DEEP_SLEEP_SWITCH_PRESS]

/-- C2 witness: at count 2 (between the two thresholds) the iteration
only rewrites the LED and attempts no transition. -/
theorem main_iter_threshold_selection_witness :
    (main_iter 2).1 = [MainEvent.ledWrite LED_ON] :=
  (main_iter_threshold_selection 2).2.2 (by decide) (by decide)

/-- C3: the sleep branch (count 1) leaves `SwitchPressCount` unchanged and
performs no write to the counter, while the deep-sleep branch (count 3)
issues `SwitchPressCount = 0` immediately after the
`Cy_SysPm_CpuEnterDeepSleep()` call, leaving the counter at 0. -/
theorem main_iter_press_count_frame :
    (main_iter SLEEP_SWITCH_PRESS).2 = SLEEP_SWITCH_PRESS ∧
    (main_iter SLEEP_SWITCH_PRESS).1.filter is_count_write = [] ∧
    (main_iter DEEP_SLEEP_SWITCH_PRESS).1 =
      [MainEvent.ledWrite LED_ON, MainEvent.enterDeepSleep,
       MainEvent.setPressCount 0] ∧
    (main_iter DEEP_SLEEP_SWITCH_PRESS).2 = 0 := by
  refine ⟨?_, ?_, ?_, ?_⟩ <;> decide

/-- Closed form for the counter value after `n` ISR invocations from 0:
`n` wrapped into the `int16_t` range. -/
lemma press_count_after_eq (n : Nat) :
    press_count_after n = int16_wrap (n : Int) := by
  induction n with
  | zero => decide
  | succ m ih =>
    rw [press_count_after, switch_isr, ih]
    unfold int16_wrap
    push_cast
    omega

/-- C5 counterexample: after 32768 edges delivered one at a time from the
initial value 0 with no intervening reset, `SwitchPressCount` is -32768
(the `int16_t` increment wrapped), not 32768 as the claim states for
every `N`. -/
theorem press_count_after_overflow :
    press_count_after 32768 = -32768 ∧
    ((press_count_after 32768 == (32768 : Int)) = false) := by
  have h : press_count_after 32768 = -32768 :=
    (press_count_after_eq 32768).trans (by decide)
  refine ⟨h, ?_⟩
  rw [h]
  decide

/-- C5 (amended with the no-overflow bound): each `switch_isr` invocation
below the `int16_t` maximum increments `SwitchPressCount` by exactly one
and clears the pending pin interrupt, and for every `N ≤ 32767`, after
`N` edges delivered one at a time from 0 with no intervening reset the
count equals `N`. -/
theorem switch_isr_count_spec (pc : Int) (n : Nat)
    (h1 : -32768 ≤ pc) (h2 : pc < 32767) (hn : n ≤ 32767) :
    (switch_isr pc).1 = pc + 1 ∧
    (switch_isr pc).2 = [IsrEvent.clearInterrupt] ∧
    press_count_after n = n := by
  refine ⟨?_, rfl, ?_⟩
  · show int16_wrap (pc + 1) = pc + 1
    unfold int16_wrap
    omega
  · rw [press_count_after_eq n]
    unfold int16_wrap
    have : (n : Int) ≤ 32767 := by exact_mod_cast hn
    omega

/-- C5 witness: three edges from a count of 5. -/
theorem switch_isr_count_spec_witness :
    (switch_isr 5).1 = 5 + 1 ∧
    (switch_isr 5).2 = [IsrEvent.clearInterrupt] ∧
    press_count_after 3 = 3 :=
  switch_isr_count_spec 5 3 (by decide) (by decide) (by decide)

/-- Preservation: along any step sequence that never increments the
counter at the `int16_t` maximum, the counter stays in [0, 32767]. -/
lemma sys_run_bounds :
    ∀ (ops : List SysOp) (pc : Int), 0 ≤ pc → pc ≤ 32767 →
      no_overflow pc ops = true →
      0 ≤ sys_run pc ops ∧ sys_run pc ops ≤ 32767 := by
  intro ops
  induction ops with
  | nil => intro pc h0 h1 _; exact ⟨h0, h1⟩
  | cons op rest ih =>
    intro pc h0 h1 hov
    cases op with
    | edge =>
      rw [no_overflow, Bool.and_eq_true, decide_eq_true_eq] at hov
      have hstep : sys_step SysOp.edge pc = pc + 1 := by
        show int16_wrap (pc + 1) = pc + 1
        unfold int16_wrap
        omega
      rw [sys_run, hstep]
      rw [hstep] at hov
      exact ih (pc + 1) (by omega) (by omega) hov.2
    | loopIter =>
      rw [no_overflow] at hov
      have hstep : sys_step SysOp.loopIter pc = pc ∨
          sys_step SysOp.loopIter pc = 0 := by
        show (main_iter pc).2 = pc ∨ (main_iter pc).2 = 0
        unfold main_iter
        split_ifs <;> simp
      rw [sys_run]
      rcases hstep with h | h <;> rw [h] at hov ⊢
      · exact ih pc h0 h1 hov
      · exact ih 0 (by omega) (by omega) hov

/-- C9: `SwitchPressCount` starts at 0, and under every interleaving of
the only two writers — the ISR increment and the main loop's deep-sleep
reset — in which no increment happens at the `int16_t` maximum (the
accepted overflow edge case), the counter remains non-negative. -/
theorem press_count_nonneg_invariant (ops : List SysOp)
    (h : no_overflow 0 ops = true) :
    sys_run 0 [] = 0 ∧ 0 ≤ sys_run 0 ops :=
  ⟨rfl, (sys_run_bounds ops 0 (by omega) (by omega) h).1⟩

/-- C9 witness: edges to count 3, a deep-sleep loop iteration resetting
to 0, then another edge. -/
theorem press_count_nonneg_invariant_witness :
    sys_run 0 [] = 0 ∧
    0 ≤ sys_run 0 [SysOp.edge, SysOp.loopIter, SysOp.edge, SysOp.edge,
      SysOp.loopIter, SysOp.edge] :=
  press_count_nonneg_invariant
    [SysOp.edge, SysOp.loopIter, SysOp.edge, SysOp.edge,
      SysOp.loopIter, SysOp.edge] (by decide)
